import Mathlib

/-!
Shallow embedding of the V2V/V2I coordination code
(`src/V2V/python/vehicle/vehicle.py`, `src/V2I/python/vehicle/vehicle_v2i.py`,
`src/V2I/python/intersection_manager.py`).

Embedding conventions:
* Python floats are embedded as exact rationals (`ℚ`); all decision thresholds
  and multipliers in the source are exactly representable small decimals.
* `math.hypot(dx, dy) < r` comparisons are embedded as comparisons of squared
  distances (`dx*dx + dy*dy < r*r`), which is equivalent for `r ≥ 0` since
  `hypot` is the square root of that sum and squaring is monotone on
  nonnegatives.  `min(..., key=distance)` keeps the first strict minimum, which
  is the same element under either key.
* Python dicts (`vehicle_states`, `all_vehicles`) preserve insertion order, so
  they are embedded as association lists in registration order; dict-key
  uniqueness becomes a `Nodup` hypothesis on the key column.
* The Python `sorted` builtin is a stable sort on the given key; it is embedded as
  `List.mergeSort` with the non-strict key comparison, which is stable.
* `traci` is the external simulator.  Queries that feed the decision logic
  (`getLaneNumber`, `getLaneIndex`) are an explicit environment record;
  commands written back (`setSpeed`, `changeLane`) are reified into a command
  list instead of performing I/O.  The telemetry-only payload-size return value
  of `communicate` and fields that never enter the control decisions
  (angle, route, length, type) are not modelled.
* Python string membership `a in b` is substring containment, embedded as
  `List.IsInfix` on the character lists; `a == b` is string equality.
-/

/-- Per-protocol total frame sizes returned by `MessagePacket.report_sizes`
(the four entries of the returned dict). -/
structure SizeReport where
  payload : Nat
  dsrc : Nat
  cv2x : Nat
  nr5g : Nat
deriving DecidableEq

namespace MessagePacket

/-- Embedding of `MessagePacket.report_sizes` (identical in
`vehicle.py` and `vehicle_v2i.py`): fixed per-protocol overhead components,
selected by the `max_overhead` flag, added to the payload size. -/
def report_sizes (payload : Nat) (max_overhead : Bool) : SizeReport :=
  let mac_header := if max_overhead then 40 else 30
  let llc_snap := 8
  let security_dsrc := if max_overhead then 100 else 60
  let dsrc_total := payload + mac_header + llc_snap + security_dsrc
  let sci := if max_overhead then 24 else 16
  let protocol_stack := if max_overhead then 40 else 20
  let security_cv2x := 48
  let cv2x_total := payload + sci + protocol_stack + security_cv2x
  let scheduling_info := if max_overhead then 40 else 24
  let protocol_stack_5g := 48
  let security_5g := 72
  let v2x5g_total := payload + scheduling_info + protocol_stack_5g + security_5g
  { payload := payload, dsrc := dsrc_total, cv2x := cv2x_total, nr5g := v2x5g_total }

end MessagePacket

namespace IntersectionManager

/-- The slice of the reported vehicle state that `decide_priorities` reads:
`lane_pos` and `last_lane_pos` (the latter is `None` on the first tick,
embedded as `Option`). -/
structure VState where
  lane_pos : ℚ
  last_lane_pos : Option ℚ
deriving DecidableEq

/-- The filter predicate of `decide_priorities` (lines 12-16 of
`intersection_manager.py`): a defined previous position, currently moving
toward the center (`lane_pos < last_lane_pos`), and still within the
approach zone (`lane_pos < 30.0`). -/
def approachingB (v : VState) : Bool :=
  match v.last_lane_pos with
  | none => false
  | some prev => decide (v.lane_pos < prev) && decide (v.lane_pos < 30)

/-- The sort key comparison of `sorted(approaching.items(), key=...lane_pos)`. -/
def posLE (a b : String × VState) : Bool := decide (a.2.lane_pos ≤ b.2.lane_pos)

/-- Embedding of `IntersectionManager.register_vehicle`: Python dict
assignment, i.e. replace in place if the key is present, else append. -/
def register_vehicle (states : List (String × VState)) (vid : String) (v : VState) :
    List (String × VState) :=
  match states with
  | [] => [(vid, v)]
  | (k, w) :: rest =>
    if k = vid then (k, v) :: rest else (k, w) :: register_vehicle rest vid v

/-- The per-vehicle verdict computation in the final loop of
`decide_priorities` (lines 26-33): not in the approaching dict → `go`;
the allowed vehicle → `go`; any other approaching vehicle → `wait`. -/
def verdictFor (approaching : List (String × VState)) (allowed_vid : String)
    (p : String × VState) : String × String :=
  if approaching.all fun q => q.1 != p.1 then (p.1, "go")
  else if p.1 = allowed_vid then (p.1, "go")
  else (p.1, "wait")

/-- Embedding of `IntersectionManager.decide_priorities`.  The registered
dict is the association list `states` in registration order. -/
def decide_priorities (states : List (String × VState)) : List (String × String) :=
  match states.filter (fun p => approachingB p.2) with
  | [] => states.map fun p => (p.1, "go")
  | a :: rest =>
    let sorted := (a :: rest).mergeSort posLE
    let allowed_vid := (sorted.headD a).1
    states.map (verdictFor (a :: rest) allowed_vid)

end IntersectionManager

/-- Claim C2: for payload 120 and for every payload `p`, `report_sizes`
returns exactly the payload plus the fixed per-protocol overhead components
for the chosen overhead mode, and reports the raw payload unchanged. -/
theorem report_sizes_exact (p : Nat) :
    MessagePacket.report_sizes p false
      = { payload := p, dsrc := p + 30 + 8 + 60, cv2x := p + 16 + 20 + 48,
          nr5g := p + 24 + 48 + 72 }
    ∧ MessagePacket.report_sizes p true
      = { payload := p, dsrc := p + 40 + 8 + 100, cv2x := p + 24 + 40 + 48,
          nr5g := p + 40 + 48 + 72 }
    ∧ (MessagePacket.report_sizes 120 false).dsrc = 218
    ∧ (MessagePacket.report_sizes 120 true).dsrc = 268
    ∧ (MessagePacket.report_sizes 120 false).cv2x = 204
    ∧ (MessagePacket.report_sizes 120 true).nr5g = 280 := by
  refine ⟨?_, ?_, rfl, rfl, rfl, rfl⟩ <;> simp [MessagePacket.report_sizes]

/-- Claim C8: for every payload, the max-overhead total dominates the
min-overhead total for each of the three protocols, and for a fixed
protocol and overhead mode the difference `total - payload` is the same
constant for all payloads. -/
theorem report_sizes_monotone_constant_overhead (p q : Nat) (b : Bool) :
    (MessagePacket.report_sizes p false).dsrc ≤ (MessagePacket.report_sizes p true).dsrc
    ∧ (MessagePacket.report_sizes p false).cv2x ≤ (MessagePacket.report_sizes p true).cv2x
    ∧ (MessagePacket.report_sizes p false).nr5g ≤ (MessagePacket.report_sizes p true).nr5g
    ∧ (MessagePacket.report_sizes p b).dsrc - p = (MessagePacket.report_sizes q b).dsrc - q
    ∧ (MessagePacket.report_sizes p b).cv2x - p = (MessagePacket.report_sizes q b).cv2x - q
    ∧ (MessagePacket.report_sizes p b).nr5g - p = (MessagePacket.report_sizes q b).nr5g - q := by
  cases b <;> simp [MessagePacket.report_sizes] <;> omega

/-- Commands written back to the simulator by the controllers:
`traci.vehicle.setSpeed` (where `-1` is the release-speed-control sentinel)
and `traci.vehicle.changeLane` (target lane index, duration). -/
inductive Command where
  | setSpeed (vid : String) (target : ℚ)
  | changeLane (vid : String) (lane : Int) (dur : ℚ)
deriving DecidableEq

/-- A per-tick vehicle snapshot: the fields of `Vehicle` (`vehicle.py`) that
the control logic reads, plus the two blockage flags. -/
structure Agent where
  vehicle_id : String
  position : ℚ × ℚ
  speed : ℚ
  edge_id : String
  current_lane : String
  lane_pos : ℚ
  stop_needed : Bool
  lane_blocked : Bool
deriving DecidableEq

/-- The simulator queries consumed by the blockage reactions:
`traci.edge.getLaneNumber` and `traci.vehicle.getLaneIndex`. -/
structure Env where
  laneNumber : String → Nat
  laneIndex : String → Int

/-- Squared Euclidean distance; `_distance_to` compares `math.hypot` of the
coordinate differences against nonnegative thresholds, which is equivalent
to comparing this value against the squared threshold. -/
def dist2 (a b : ℚ × ℚ) : ℚ :=
  (b.1 - a.1) * (b.1 - a.1) + (b.2 - a.2) * (b.2 - a.2)

namespace V2V

/-- The `is_inside_intersection` closure of `Vehicle.communicate`:
the fixed conflict-zone rectangle [4370,4400] × [1320,1350]. -/
def is_inside_intersection (v : Agent) : Bool :=
  decide ((4370 : ℚ) ≤ v.position.1) && decide (v.position.1 ≤ 4400) &&
  decide ((1320 : ℚ) ≤ v.position.2) && decide (v.position.2 ≤ 1350)

/-- Embedding of `Vehicle._is_on_same_edge`. -/
def is_on_same_edge (s o : Agent) : Bool := s.edge_id == o.edge_id

/-- Embedding of `Vehicle._is_ahead_of`: in `vehicle.py` the other agent is
ahead when it has the larger `lane_pos`. -/
def is_ahead_of (s o : Agent) : Bool := decide (s.lane_pos < o.lane_pos)

/-- Step 1 of `Vehicle.communicate`: outside the intersection rectangle, and
some other agent is inside it within the safety distance (the loop returns
on the first such agent, commanding a stop). -/
def conflict_entry (s : Agent) (all_vehicles : List Agent) (safe_distance : ℚ) : Bool :=
  !is_inside_intersection s &&
    all_vehicles.any fun o =>
      o.vehicle_id != s.vehicle_id && is_inside_intersection o &&
      decide (dist2 s.position o.position < safe_distance * safe_distance)

/-- The `nearby_vehicles` list of `Vehicle.communicate`: other agents on the
same edge within the lookahead radius. -/
def nearbyOf (s : Agent) (all_vehicles : List Agent) (radius : ℚ) : List Agent :=
  all_vehicles.filter fun o =>
    o.vehicle_id != s.vehicle_id && is_on_same_edge s o &&
    decide (dist2 s.position o.position ≤ radius * radius)

/-- The `leaders` list of `Vehicle.communicate`. -/
def leadersOf (s : Agent) (all_vehicles : List Agent) (radius : ℚ) : List Agent :=
  (nearbyOf s all_vehicles radius).filter fun v => is_ahead_of s v

/-- Embedding of `min(leaders, key=self._distance_to)`: the Python `min` builtin keeps
the first element attaining the strict minimum of the key. -/
def minByDist (s : Agent) : List Agent → Option Agent
  | [] => none
  | x :: xs =>
    some (xs.foldl
      (fun acc v =>
        if dist2 s.position v.position < dist2 s.position acc.position then v else acc)
      x)

/-- Embedding of `Vehicle._stop_and_wait`. -/
def stop_and_wait (s : Agent) : List Command := [Command.setSpeed s.vehicle_id 0]

/-- Embedding of `Vehicle._change_lane`: with more than one lane, switch to
`1 - index` for two lanes, else `(index + 1) % num_lanes`; with one lane the
function does nothing (the `TraCIException` handler only swallows failures). -/
def change_lane (env : Env) (s : Agent) : List Command :=
  let lane_index := env.laneIndex s.vehicle_id
  let num_lanes := env.laneNumber s.edge_id
  if num_lanes > 1 then
    let alt_lane : Int :=
      if num_lanes = 2 then 1 - lane_index else (lane_index + 1) % (num_lanes : Int)
    [Command.changeLane s.vehicle_id alt_lane 25]
  else []

/-- Embedding of `Vehicle.communicate` (`vehicle.py` lines 102-171), with the
simulator commands reified and the updated flags returned as the new state.
The telemetry packet-size return value is not modelled. -/
def communicate (env : Env) (s : Agent) (all_vehicles : List Agent)
    (radius safe_distance : ℚ) : List Command × Agent :=
  if conflict_entry s all_vehicles safe_distance then
    ([Command.setSpeed s.vehicle_id 0], s)
  else
    let leaders := leadersOf s all_vehicles radius
    if s.stop_needed then
      (stop_and_wait s, { s with stop_needed := false })
    else if s.lane_blocked then
      ((if env.laneNumber s.edge_id > 1 then change_lane env s else stop_and_wait s),
        { s with lane_blocked := false })
    else if leaders.isEmpty then
      ((if decide (s.speed < 5) && !decide (s.speed > 25) then
          [Command.setSpeed s.vehicle_id
            (max 0 ((if s.speed > 0 then s.speed else 1) * (6 / 5 : ℚ)))]
        else []), s)
    else
      match minByDist s leaders with
      | none => ([], s)
      | some nearest =>
        ((if decide (dist2 s.position nearest.position < safe_distance * safe_distance) then
            [Command.setSpeed s.vehicle_id (max 0 (nearest.speed * (4 / 5 : ℚ)))]
          else []), s)

/-- Embedding of `Vehicle.handle_unexpected_event`: a `full_block` whose
location is a substring of the current lane id sets `stop_needed`; a
`lane_block` whose location equals the current lane id sets `lane_blocked`. -/
def handle_unexpected_event (s : Agent) (event_type lane_name : String) : Agent :=
  if event_type == "full_block" && decide (lane_name.data <:+: s.current_lane.data) then
    { s with stop_needed := true }
  else if event_type == "lane_block" && lane_name == s.current_lane then
    { s with lane_blocked := true }
  else s

end V2V

namespace V2I

/-- Embedding of `VehicleV2I.apply_decision` (`vehicle_v2i.py` lines
108-119): past the threshold 30.0 always release speed control (`-1`);
otherwise `wait` commands speed 0 and `go` releases; any other decision
string issues no command. -/
def apply_decision (vid : String) (lane_pos : ℚ) (decision : String) : List Command :=
  if lane_pos > 30 then [Command.setSpeed vid (-1)]
  else if decision == "wait" then [Command.setSpeed vid 0]
  else if decision == "go" then [Command.setSpeed vid (-1)]
  else []

/-- Embedding of `VehicleV2I._change_lane`: like the V2V variant, but with a
single lane it commands a full stop (`setSpeed 0`) instead of doing nothing. -/
def change_lane (env : Env) (s : Agent) : List Command :=
  let lane_index := env.laneIndex s.vehicle_id
  let num_lanes := env.laneNumber s.edge_id
  if num_lanes > 1 then
    let alt_lane : Int :=
      if num_lanes = 2 then 1 - lane_index else (lane_index + 1) % (num_lanes : Int)
    [Command.changeLane s.vehicle_id alt_lane 25]
  else [Command.setSpeed s.vehicle_id 0]

/-- Embedding of `VehicleV2I.handle_unexpected_event`: same applicability
conditions as the V2V variant, but reacting immediately with commands. -/
def handle_unexpected_event (env : Env) (s : Agent) (event_type lane_name : String) :
    List Command :=
  if event_type == "full_block" && decide (lane_name.data <:+: s.current_lane.data) then
    [Command.setSpeed s.vehicle_id 0]
  else if event_type == "lane_block" && lane_name == s.current_lane then
    change_lane env s
  else []

end V2I

/-- Claim C3: `apply_decision` on an agent past the conflict-zone threshold
(`lane_pos > 30`) always issues the unconstrained-speed release (`-1`)
regardless of the verdict; at or below the threshold, `wait` commands target
speed zero and `go` issues the release. -/
theorem apply_decision_past_zone (vid : String) (lp : ℚ) :
    (lp > 30 → ∀ d : String, V2I.apply_decision vid lp d = [Command.setSpeed vid (-1)])
    ∧ (lp ≤ 30 →
        V2I.apply_decision vid lp "wait" = [Command.setSpeed vid 0]
        ∧ V2I.apply_decision vid lp "go" = [Command.setSpeed vid (-1)]) :=
  by
  constructor
  · intro h d
    simp [V2I.apply_decision, h]
  · intro h
    have h30 : ¬ lp > 30 := not_lt.mpr h
    have e1 : ("wait" == "wait") = true := by decide
    have e2 : ("go" == "wait") = false := by decide
    have e3 : ("go" == "go") = true := by decide
    refine ⟨?_, ?_⟩ <;> simp [V2I.apply_decision, h30, e1, e2, e3]

/-- Witness for C3 at `lane_pos = 40` (past the zone, verdict `wait`) and
`lane_pos = 10` (inside the zone, both verdicts). -/
theorem apply_decision_past_zone_witness :
    V2I.apply_decision "A" 40 "wait" = [Command.setSpeed "A" (-1)]
    ∧ V2I.apply_decision "A" 10 "wait" = [Command.setSpeed "A" 0]
    ∧ V2I.apply_decision "A" 10 "go" = [Command.setSpeed "A" (-1)] :=
  ⟨(apply_decision_past_zone "A" 40).1 (by decide) "wait",
   ((apply_decision_past_zone "A" 10).2 (by decide)).1,
   ((apply_decision_past_zone "A" 10).2 (by decide)).2⟩

/-- A concrete simulator environment: every edge has a single lane and every
vehicle sits at lane index 0. -/
def env0 : Env := { laneNumber := fun _ => 1, laneIndex := fun _ => 0 }

/-- Agent A of the end-to-end scenario of the spec: lane position 40,
speed 10, away from the intersection rectangle. -/
def c7A : Agent :=
  { vehicle_id := "A", position := (0, 0), speed := 10, edge_id := "e",
    current_lane := "e_0", lane_pos := 40, stop_needed := false, lane_blocked := false }

/-- Agent B of the end-to-end scenario, the leader at lane position 55,
15 meters ahead of A. -/
def c7B : Agent := { c7A with vehicle_id := "B", position := (15, 0), lane_pos := 55 }

/-- Agent B moved to lane position 50, 10 meters ahead of A. -/
def c7B2 : Agent := { c7B with position := (10, 0), lane_pos := 50 }

/-- Claim C7: in the two-agent scenario, with the leader 15 m ahead the
gap-keeping pass issues no speed command (15 is not strictly less than the
safety distance 15); with the leader 10 m ahead it commands speed
8 = 0.8 × 10. -/
theorem end_to_end_scenario :
    V2V.communicate env0 c7A [c7B] 20 15 = ([], c7A)
    ∧ V2V.communicate env0 c7A [c7B2] 20 15 = ([Command.setSpeed "A" 8], c7A) := by
  have hBA : ("B" : String) ≠ "A" := by decide
  constructor
  · norm_num [V2V.communicate, V2V.conflict_entry, V2V.is_inside_intersection,
      V2V.is_on_same_edge, V2V.is_ahead_of, V2V.nearbyOf, V2V.leadersOf,
      V2V.minByDist, dist2, c7A, c7B, env0, hBA, List.filter_cons, List.foldl_cons,
      List.foldl_nil]
  · norm_num [V2V.communicate, V2V.conflict_entry, V2V.is_inside_intersection,
      V2V.is_on_same_edge, V2V.is_ahead_of, V2V.nearbyOf, V2V.leadersOf,
      V2V.minByDist, dist2, c7A, c7B, c7B2, env0, hBA, List.filter_cons, List.foldl_cons,
      List.foldl_nil]

/-- The first strict minimum kept by `minByDist` is an element of the list. -/
theorem minByDist_mem (s : Agent) (l : List Agent) (v : Agent)
    (h : V2V.minByDist s l = some v) : v ∈ l := by
  cases l with
  | nil => simp [V2V.minByDist] at h
  | cons x xs =>
    simp only [V2V.minByDist, Option.some.injEq] at h
    have key : ∀ (ys : List Agent) (acc : Agent),
        ys.foldl
          (fun acc w =>
            if dist2 s.position w.position < dist2 s.position acc.position then w else acc)
          acc ∈ acc :: ys := by
      intro ys
      induction ys with
      | nil => intro acc; simp
      | cons y ys ih =>
        intro acc
        simp only [List.foldl_cons]
        by_cases hc : dist2 s.position y.position < dist2 s.position acc.position
        · rw [if_pos hc]
          have hm := ih y
          simp only [List.mem_cons] at hm ⊢
          tauto
        · rw [if_neg hc]
          have hm := ih acc
          simp only [List.mem_cons] at hm ⊢
          tauto
    have hm := key xs x
    rw [h] at hm
    simp only [List.mem_cons] at hm ⊢
    tauto

/-- Every leader is drawn from the surrounding vehicle list. -/
theorem leadersOf_subset (s : Agent) (all : List Agent) (radius : ℚ) (v : Agent)
    (h : v ∈ V2V.leadersOf s all radius) : v ∈ all := by
  simp only [V2V.leadersOf, V2V.nearbyOf, List.mem_filter] at h
  exact h.1.1

/-- Claim C4 (amended): for an agent inside the conflict-zone rectangle with
no pending blockage flags, the conflict-entry check never runs, and a
gap-keeping pass only issues speed commands with strictly positive targets —
hence never a stop — provided every other agent has strictly positive speed.
(Without that proviso the claim fails: following a stopped leader commands
`max(0, 0.8 × 0) = 0`, see the counterexample.) -/
theorem communicate_inside_no_stop (env : Env) (s : Agent) (all : List Agent)
    (radius safe : ℚ)
    (hin : V2V.is_inside_intersection s = true)
    (hsn : s.stop_needed = false) (hlb : s.lane_blocked = false)
    (hpos : all.all (fun o => decide (0 < o.speed)) = true) :
    ∀ (v : String) (q : ℚ),
      Command.setSpeed v q ∈ (V2V.communicate env s all radius safe).1 → 0 < q := by
  intro v q hmem
  have hce : V2V.conflict_entry s all safe = false := by
    simp [V2V.conflict_entry, hin]
  rw [V2V.communicate, if_neg (by simp [hce])] at hmem
  simp only [hsn, hlb, Bool.false_eq_true, if_false] at hmem
  by_cases hemp : (V2V.leadersOf s all radius).isEmpty = true
  · rw [if_pos hemp] at hmem
    by_cases hacc : (decide (s.speed < 5) && !decide (s.speed > 25)) = true
    · rw [if_pos hacc] at hmem
      simp only [List.mem_singleton, Command.setSpeed.injEq] at hmem
      rcases hmem with ⟨-, rfl⟩
      have hx : (0 : ℚ) < (if s.speed > 0 then s.speed else 1) * (6 / 5) := by
        by_cases hsp : s.speed > 0
        · rw [if_pos hsp]; positivity
        · rw [if_neg hsp]; norm_num
      exact lt_max_iff.mpr (Or.inr hx)
    · rw [if_neg hacc] at hmem
      simp at hmem
  · rw [if_neg hemp] at hmem
    cases hmin : V2V.minByDist s (V2V.leadersOf s all radius) with
    | none => rw [hmin] at hmem; simp at hmem
    | some nearest =>
      rw [hmin] at hmem
      dsimp only at hmem
      have hnsp : 0 < nearest.speed := by
        have hmemall : nearest ∈ all :=
          leadersOf_subset s all radius nearest (minByDist_mem s _ nearest hmin)
        have := List.all_eq_true.mp hpos nearest hmemall
        exact of_decide_eq_true this
      by_cases hdist :
          (decide (dist2 s.position nearest.position < safe * safe)) = true
      · rw [if_pos hdist] at hmem
        simp only [List.mem_singleton, Command.setSpeed.injEq] at hmem
        rcases hmem with ⟨-, rfl⟩
        have hx : (0 : ℚ) < nearest.speed * (4 / 5) := by positivity
        exact lt_max_iff.mpr (Or.inr hx)
      · rw [if_neg hdist] at hmem
        simp at hmem

/-- An agent inside the conflict-zone rectangle. -/
def c4A : Agent :=
  { vehicle_id := "A", position := (4380, 1330), speed := 5, edge_id := "e",
    current_lane := "e_0", lane_pos := 10, stop_needed := false, lane_blocked := false }

/-- A stopped leader on the same edge, 4 m ahead of `c4A`. -/
def c4B : Agent :=
  { c4A with
    vehicle_id := "B"
    position := (4384, 1330)
    speed := 0
    lane_pos := 20 }

/-- The same leader with positive speed 10. -/
def c4W : Agent := { c4B with speed := 10 }

/-- Claim C4 counterexample: an agent inside the conflict-zone rectangle
with no pending blockage event is commanded to stop (target speed zero) by
the leader-following adjustment when its nearest leader is stopped. -/
theorem communicate_inside_stop_counterexample :
    V2V.is_inside_intersection c4A = true
    ∧ c4A.stop_needed = false ∧ c4A.lane_blocked = false
    ∧ V2V.communicate env0 c4A [c4B] 20 15 = ([Command.setSpeed "A" 0], c4A) := by
  have hBA : ("B" : String) ≠ "A" := by decide
  refine ⟨by decide, rfl, rfl, ?_⟩
  norm_num [V2V.communicate, V2V.conflict_entry, V2V.is_inside_intersection,
    V2V.is_on_same_edge, V2V.is_ahead_of, V2V.nearbyOf, V2V.leadersOf,
    V2V.minByDist, dist2, c4A, c4B, env0, hBA, List.filter_cons, List.foldl_cons,
    List.foldl_nil]

/-- Witness for the amended C4: the inside agent following a moving leader
(speed 10) is commanded speed 8, and the theorem shows that speed positive. -/
theorem communicate_inside_no_stop_witness :
    (0 : ℚ) < 8 ∧ Command.setSpeed "A" 8 ∈ (V2V.communicate env0 c4A [c4W] 20 15).1 := by
  have hBA : ("B" : String) ≠ "A" := by decide
  have hmem : Command.setSpeed "A" 8 ∈ (V2V.communicate env0 c4A [c4W] 20 15).1 := by
    have hrun : V2V.communicate env0 c4A [c4W] 20 15 = ([Command.setSpeed "A" 8], c4A) := by
      norm_num [V2V.communicate, V2V.conflict_entry, V2V.is_inside_intersection,
        V2V.is_on_same_edge, V2V.is_ahead_of, V2V.nearbyOf, V2V.leadersOf,
        V2V.minByDist, dist2, c4A, c4B, c4W, env0, hBA, List.filter_cons,
        List.foldl_cons, List.foldl_nil]
    rw [hrun]
    simp
  exact ⟨communicate_inside_no_stop env0 c4A [c4W] 20 15 (by decide) rfl rfl
    (by decide) "A" 8 hmem, hmem⟩

/-- Claim C5 (amended): provided the pass is not short-circuited by the
conflict-entry stop and no full-block reaction is pending, one pass consumes
and clears an injected `lane_blocked` flag; and a pass on an agent whose
`lane_blocked` flag is clear issues no lane-change request.  (As stated for
every agent the claim fails: the conflict-entry stop returns before the
blockage handling and leaves the flag set, see the counterexample.) -/
theorem blockage_oneshot (env : Env) (s : Agent) (all : List Agent) (radius safe : ℚ) :
    (V2V.conflict_entry s all safe = false → s.stop_needed = false → s.lane_blocked = true →
      ((V2V.communicate env s all radius safe).2).lane_blocked = false)
    ∧ (s.lane_blocked = false →
        ∀ (v : String) (i : Int) (d : ℚ),
          Command.changeLane v i d ∉ (V2V.communicate env s all radius safe).1) := by
  constructor
  · intro hce hsn hlb
    simp [V2V.communicate, hce, hsn, hlb]
  · intro hlb v i d hmem
    rw [V2V.communicate] at hmem
    by_cases hce : V2V.conflict_entry s all safe = true
    · rw [if_pos hce] at hmem
      simp at hmem
    · rw [if_neg hce] at hmem
      by_cases hsn : s.stop_needed = true
      · rw [if_pos hsn] at hmem
        simp [V2V.stop_and_wait] at hmem
      · rw [if_neg hsn] at hmem
        rw [if_neg (by simp [hlb] : ¬ s.lane_blocked = true)] at hmem
        by_cases hemp : (V2V.leadersOf s all radius).isEmpty = true
        · rw [if_pos hemp] at hmem
          by_cases hacc : (decide (s.speed < 5) && !decide (s.speed > 25)) = true
          · rw [if_pos hacc] at hmem
            simp at hmem
          · rw [if_neg hacc] at hmem
            simp at hmem
        · rw [if_neg hemp] at hmem
          cases hmin : V2V.minByDist s (V2V.leadersOf s all radius) with
          | none =>
            rw [hmin] at hmem
            simp at hmem
          | some nearest =>
            rw [hmin] at hmem
            dsimp only at hmem
            by_cases hdist :
                (decide (dist2 s.position nearest.position < safe * safe)) = true
            · rw [if_pos hdist] at hmem
              simp at hmem
            · rw [if_neg hdist] at hmem
              simp at hmem

/-- An agent just outside the intersection rectangle with a pending
lane-block flag about to be injected. -/
def c5S : Agent :=
  { vehicle_id := "S", position := (4369, 1335), speed := 5, edge_id := "e",
    current_lane := "e_0", lane_pos := 10, stop_needed := false, lane_blocked := false }

/-- Another agent already inside the intersection rectangle, 2 m away. -/
def c5O : Agent := { c5S with vehicle_id := "O", position := (4371, 1335) }

/-- Claim C5 counterexample: after injecting a `lane_blocked` event, one
controller pass that is short-circuited by the conflict-entry stop does not
clear the flag. -/
theorem blockage_oneshot_counterexample :
    (V2V.handle_unexpected_event c5S "lane_block" "e_0").lane_blocked = true
    ∧ ((V2V.communicate env0 (V2V.handle_unexpected_event c5S "lane_block" "e_0")
          [c5O] 20 15).2).lane_blocked = true := by
  have hOS : ("O" : String) ≠ "S" := by decide
  refine ⟨by decide, ?_⟩
  have hH : V2V.handle_unexpected_event c5S "lane_block" "e_0"
      = { c5S with lane_blocked := true } := by decide
  rw [hH]
  norm_num [V2V.communicate, V2V.conflict_entry, V2V.is_inside_intersection,
    dist2, c5S, c5O, env0, hOS, List.any_cons, List.any_nil]

/-- A lone agent with a pending lane-block flag on a single-lane edge. -/
def c5T : Agent :=
  { vehicle_id := "T", position := (0, 0), speed := 5, edge_id := "e",
    current_lane := "e_0", lane_pos := 10, stop_needed := false, lane_blocked := true }

/-- Witness for the amended C5: an unobstructed pass clears the flag, and the
follow-up pass on the cleared state issues no lane-change request. -/
theorem blockage_oneshot_witness :
    ((V2V.communicate env0 c5T [] 20 15).2).lane_blocked = false
    ∧ ∀ (v : String) (i : Int) (d : ℚ),
        Command.changeLane v i d
          ∉ (V2V.communicate env0 ((V2V.communicate env0 c5T [] 20 15).2) [] 20 15).1 :=
  ⟨(blockage_oneshot env0 c5T [] 20 15).1 (by decide) rfl rfl,
   (blockage_oneshot env0 ((V2V.communicate env0 c5T [] 20 15).2) [] 20 15).2 (by decide)⟩

/-- Clearing an already-clear `lane_blocked` flag is the identity. -/
theorem clear_lane_blocked_self (s : Agent) (h : s.lane_blocked = false) :
    { s with lane_blocked := false } = s := by
  cases s
  simp_all

/-- Clearing an already-clear `stop_needed` flag is the identity. -/
theorem clear_stop_needed_self (s : Agent) (h : s.stop_needed = false) :
    { s with stop_needed := false } = s := by
  cases s
  simp_all

/-- The conflict-entry check reads only position and id, never the blockage
flags. -/
theorem conflict_entry_flags (s : Agent) (all : List Agent) (safe : ℚ) (b c : Bool) :
    V2V.conflict_entry { s with stop_needed := b, lane_blocked := c } all safe
      = V2V.conflict_entry s all safe := rfl

/-- Claim C6: on an edge with exactly one lane, consuming an injected
`lane_blocked` event produces the same commands and the same resulting
controller state as consuming a `path_blocked` (full-block) event located at
that edge; likewise the V2I handler reacts identically to both events. -/
theorem single_lane_fallback (env : Env) (s : Agent) (all : List Agent) (radius safe : ℚ)
    (hsn : s.stop_needed = false) (hlb : s.lane_blocked = false)
    (hone : env.laneNumber s.edge_id = 1)
    (hedge : s.edge_id.data <:+: s.current_lane.data)
    (hce : V2V.conflict_entry s all safe = false) :
    V2V.communicate env (V2V.handle_unexpected_event s "lane_block" s.current_lane)
        all radius safe
      = V2V.communicate env (V2V.handle_unexpected_event s "full_block" s.edge_id)
        all radius safe
    ∧ V2I.handle_unexpected_event env s "lane_block" s.current_lane
      = V2I.handle_unexpected_event env s "full_block" s.edge_id := by
  have e1 : ("lane_block" == "full_block") = false := by decide
  have e3 : ("full_block" == "full_block") = true := by decide
  have hLB : V2V.handle_unexpected_event s "lane_block" s.current_lane
      = { s with lane_blocked := true } := by
    simp [V2V.handle_unexpected_event, e1]
  have hFB : V2V.handle_unexpected_event s "full_block" s.edge_id
      = { s with stop_needed := true } := by
    simp [V2V.handle_unexpected_event, e3, hedge]
  constructor
  · rw [hLB, hFB]
    rw [V2V.communicate, V2V.communicate,
      conflict_entry_flags s all safe s.stop_needed true,
      conflict_entry_flags s all safe true s.lane_blocked, hce]
    simp [hsn, hlb, hone, V2V.stop_and_wait]
  · simp [V2I.handle_unexpected_event, V2I.change_lane, e1, e3, hedge, hone]

/-- A lone agent on a single-lane edge, outside the intersection rectangle. -/
def c6S : Agent :=
  { vehicle_id := "S6", position := (0, 0), speed := 5, edge_id := "e",
    current_lane := "e_0", lane_pos := 10, stop_needed := false, lane_blocked := false }

/-- Witness for C6 on a concrete single-lane edge. -/
theorem single_lane_fallback_witness :
    V2V.communicate env0 (V2V.handle_unexpected_event c6S "lane_block" "e_0") [] 20 15
      = V2V.communicate env0 (V2V.handle_unexpected_event c6S "full_block" "e") [] 20 15
    ∧ V2I.handle_unexpected_event env0 c6S "lane_block" "e_0"
      = V2I.handle_unexpected_event env0 c6S "full_block" "e" :=
  single_lane_fallback env0 c6S [] 20 15 rfl rfl rfl (by decide) (by decide)

/-- Claim C10: a full-block event applies to an agent exactly when its
location string is a substring of the current lane id of the agent (so an empty
location matches every agent), while a lane-block event applies exactly when
its location equals the current lane id. -/
theorem handle_event_applicability (s : Agent) (loc : String)
    (hsn : s.stop_needed = false) (hlb : s.lane_blocked = false) :
    ((V2V.handle_unexpected_event s "full_block" loc).stop_needed = true
      ↔ loc.data <:+: s.current_lane.data)
    ∧ ((V2V.handle_unexpected_event s "lane_block" loc).lane_blocked = true
      ↔ loc = s.current_lane)
    ∧ (V2V.handle_unexpected_event s "full_block" "").stop_needed = true := by
  have e1 : ("lane_block" == "full_block") = false := by decide
  have e3 : ("full_block" == "full_block") = true := by decide
  have e4 : ("full_block" == "lane_block") = false := by decide
  refine ⟨?_, ?_, ?_⟩
  · by_cases h : loc.data <:+: s.current_lane.data
    · simp [V2V.handle_unexpected_event, e3, h]
    · simp [V2V.handle_unexpected_event, e3, e4, h, hsn]
  · by_cases h : loc = s.current_lane
    · simp [V2V.handle_unexpected_event, e1, h]
    · have hb : (loc == s.current_lane) = false := beq_false_of_ne h
      simp [V2V.handle_unexpected_event, e1, hb, hlb, h]
  · simp [V2V.handle_unexpected_event, e3, List.nil_infix,
      (show ("" : String).data = [] from rfl)]

/-- An agent on lane `ed_1` of edge `ed`. -/
def c10S : Agent :=
  { vehicle_id := "V", position := (0, 0), speed := 5, edge_id := "ed",
    current_lane := "ed_1", lane_pos := 10, stop_needed := false, lane_blocked := false }

/-- Witness for C10 at location string `ed` (the edge id, a proper substring
of the lane id). -/
theorem handle_event_applicability_witness :
    ((V2V.handle_unexpected_event c10S "full_block" "ed").stop_needed = true
      ↔ ("ed" : String).data <:+: c10S.current_lane.data)
    ∧ ((V2V.handle_unexpected_event c10S "lane_block" "ed").lane_blocked = true
      ↔ "ed" = c10S.current_lane)
    ∧ (V2V.handle_unexpected_event c10S "full_block" "").stop_needed = true :=
  handle_event_applicability c10S "ed" rfl rfl

namespace IntersectionManager

/-- The sort comparison is transitive. -/
theorem posLE_trans : ∀ a b c : String × VState, posLE a b → posLE b c → posLE a c := by
  intro a b c hab hbc
  simp only [posLE, decide_eq_true_eq] at hab hbc ⊢
  exact le_trans hab hbc

/-- The sort comparison is total. -/
theorem posLE_total : ∀ a b : String × VState, posLE a b || posLE b a := by
  intro a b
  simp only [posLE, Bool.or_eq_true, decide_eq_true_eq]
  exact le_total _ _

/-- Registered entries with equal keys are equal when the key column has no
duplicates (the dict-key invariant). -/
theorem key_inj {states : List (String × VState)}
    (hnd : (states.map Prod.fst).Nodup) {p q : String × VState}
    (hp : p ∈ states) (hq : q ∈ states) (hk : p.1 = q.1) : p = q :=
  List.inj_on_of_nodup_map hnd hp hq hk

/-- The verdict loop always pairs the verdict with the id of the vehicle itself. -/
theorem verdictFor_fst (app : List (String × VState)) (al : String)
    (p : String × VState) : (verdictFor app al p).1 = p.1 := by
  rw [verdictFor]
  split
  · rfl
  · split <;> rfl

/-- The head of the sorted approaching list is an approaching vehicle with
minimal lane position. -/
theorem mergeSort_head_spec (a : String × VState) (rest : List (String × VState)) :
    ((a :: rest).mergeSort posLE).headD a ∈ a :: rest
    ∧ ∀ q ∈ a :: rest,
        (((a :: rest).mergeSort posLE).headD a).2.lane_pos ≤ q.2.lane_pos := by
  cases hs : (a :: rest).mergeSort posLE with
  | nil =>
    exfalso
    have hlen : ((a :: rest).mergeSort posLE).length = (a :: rest).length :=
      List.length_mergeSort _
    rw [hs] at hlen
    simp at hlen
  | cons h0 t =>
    have hmem : h0 ∈ (a :: rest).mergeSort posLE := by
      rw [hs]; exact List.mem_cons_self _ _
    have hmem' : h0 ∈ a :: rest := List.mem_mergeSort.mp hmem
    constructor
    · simpa [hs] using hmem'
    · intro q hq
      have hq' : q ∈ (a :: rest).mergeSort posLE := List.mem_mergeSort.mpr hq
      rw [hs] at hq'
      rcases List.mem_cons.mp hq' with rfl | hq''
      · simp [hs]
      · have hp : List.Pairwise (fun x y => posLE x y = true) (h0 :: t) := by
          rw [← hs]
          exact List.sorted_mergeSort posLE_trans posLE_total (a :: rest)
        have hle := (List.pairwise_cons.mp hp).1 q hq''
        simp only [posLE, decide_eq_true_eq] at hle
        simpa [hs] using hle

end IntersectionManager

/-- Claim C1: `decide_priorities` returns one verdict per registered id; an
absent previous lane position never counts as approaching; with no
approaching vehicle every id gets `go`; otherwise some approaching vehicle
of minimal lane position gets `go`, every other approaching vehicle gets
`wait`, and every non-approaching vehicle gets `go`. -/
theorem decide_priorities_spec (states : List (String × IntersectionManager.VState))
    (hnd : (states.map Prod.fst).Nodup) :
    ((IntersectionManager.decide_priorities states).map Prod.fst = states.map Prod.fst)
    ∧ (∀ v : IntersectionManager.VState, v.last_lane_pos = none →
        IntersectionManager.approachingB v = false)
    ∧ ((∀ p ∈ states, IntersectionManager.approachingB p.2 = false) →
        ∀ r ∈ IntersectionManager.decide_priorities states, r.2 = "go")
    ∧ ((∃ p ∈ states, IntersectionManager.approachingB p.2 = true) →
        ∃ a ∈ states, IntersectionManager.approachingB a.2 = true
          ∧ (a.1, "go") ∈ IntersectionManager.decide_priorities states
          ∧ (∀ q ∈ states, IntersectionManager.approachingB q.2 = true →
              a.2.lane_pos ≤ q.2.lane_pos)
          ∧ (∀ q ∈ states, IntersectionManager.approachingB q.2 = true → q ≠ a →
              (q.1, "wait") ∈ IntersectionManager.decide_priorities states)
          ∧ (∀ q ∈ states, IntersectionManager.approachingB q.2 = false →
              (q.1, "go") ∈ IntersectionManager.decide_priorities states)) := by
  classical
  have hnone : ∀ v : IntersectionManager.VState, v.last_lane_pos = none →
      IntersectionManager.approachingB v = false := by
    intro v hv
    simp [IntersectionManager.approachingB, hv]
  cases hfil : states.filter (fun p => IntersectionManager.approachingB p.2) with
  | nil =>
    have hdp : IntersectionManager.decide_priorities states
        = states.map fun p => (p.1, "go") := by
      unfold IntersectionManager.decide_priorities
      rw [hfil]
    refine ⟨?_, hnone, ?_, ?_⟩
    · rw [hdp, List.map_map]
      apply List.map_congr_left
      intro p _
      rfl
    · intro _ r hr
      rw [hdp] at hr
      obtain ⟨p, _, rfl⟩ := List.mem_map.mp hr
      rfl
    · rintro ⟨p, hp, hap⟩
      exfalso
      have hmem : p ∈ states.filter (fun p => IntersectionManager.approachingB p.2) :=
        List.mem_filter.mpr ⟨hp, hap⟩
      rw [hfil] at hmem
      simp at hmem
  | cons a rest =>
    obtain ⟨hHmem, hHmin⟩ := IntersectionManager.mergeSort_head_spec a rest
    set H := (((a :: rest).mergeSort IntersectionManager.posLE).headD a) with hHdef
    have hdp : IntersectionManager.decide_priorities states
        = states.map (IntersectionManager.verdictFor (a :: rest) H.1) := by
      unfold IntersectionManager.decide_priorities
      rw [hfil]
    have hHfil : H ∈ states.filter (fun p => IntersectionManager.approachingB p.2) := by
      rw [hfil]; exact hHmem
    have hHstates : H ∈ states := (List.mem_filter.mp hHfil).1
    have hHap : IntersectionManager.approachingB H.2 = true :=
      (List.mem_filter.mp hHfil).2
    have hallcheck : ∀ p ∈ states,
        (((a :: rest).all fun q => q.1 != p.1) = true
          ↔ IntersectionManager.approachingB p.2 = false) := by
      intro p hp
      constructor
      · intro hall
        cases hx : IntersectionManager.approachingB p.2 with
        | false => rfl
        | true =>
          exfalso
          have hpfil : p ∈ a :: rest := by
            rw [← hfil]; exact List.mem_filter.mpr ⟨hp, hx⟩
          have := List.all_eq_true.mp hall p hpfil
          simp at this
      · intro hnap
        apply List.all_eq_true.mpr
        intro q hqfil
        have hq' : q ∈ states.filter (fun p => IntersectionManager.approachingB p.2) := by
          rw [hfil]; exact hqfil
        have hqs : q ∈ states := (List.mem_filter.mp hq').1
        have hqap := (List.mem_filter.mp hq').2
        apply bne_iff_ne.mpr
        intro heq
        have hqp : q = p := IntersectionManager.key_inj hnd hqs hp heq
        rw [hqp, hnap] at hqap
        exact Bool.false_ne_true hqap
    have hver_go : ∀ p ∈ states, IntersectionManager.approachingB p.2 = false →
        IntersectionManager.verdictFor (a :: rest) H.1 p = (p.1, "go") := by
      intro p hp hnap
      rw [IntersectionManager.verdictFor, if_pos ((hallcheck p hp).mpr hnap)]
    have hver_app : ∀ p ∈ states, IntersectionManager.approachingB p.2 = true →
        ¬ (((a :: rest).all fun q => q.1 != p.1) = true) := by
      intro p hp hap hall
      have := (hallcheck p hp).mp hall
      rw [hap] at this
      exact absurd this (by decide)
    have hver_H : IntersectionManager.verdictFor (a :: rest) H.1 H = (H.1, "go") := by
      rw [IntersectionManager.verdictFor, if_neg (hver_app H hHstates hHap), if_pos rfl]
    have hver_wait : ∀ q ∈ states, IntersectionManager.approachingB q.2 = true → q ≠ H →
        IntersectionManager.verdictFor (a :: rest) H.1 q = (q.1, "wait") := by
      intro q hq hqap hne
      rw [IntersectionManager.verdictFor, if_neg (hver_app q hq hqap), if_neg ?_]
      intro heq
      exact hne (IntersectionManager.key_inj hnd hq hHstates heq)
    refine ⟨?_, hnone, ?_, ?_⟩
    · rw [hdp, List.map_map]
      apply List.map_congr_left
      intro p _
      exact IntersectionManager.verdictFor_fst (a :: rest) H.1 p
    · intro hall
      exfalso
      have hain : a ∈ states.filter (fun p => IntersectionManager.approachingB p.2) := by
        rw [hfil]; exact List.mem_cons_self _ _
      have h1' := (List.mem_filter.mp hain).2
      have h2' := hall a (List.mem_filter.mp hain).1
      rw [h1'] at h2'
      exact absurd h2' (by decide)
    · intro _
      refine ⟨H, hHstates, hHap, ?_, ?_, ?_, ?_⟩
      · rw [hdp]
        exact List.mem_map.mpr ⟨H, hHstates, hver_H⟩
      · intro q hq hqap
        have hqfil : q ∈ a :: rest := by
          rw [← hfil]; exact List.mem_filter.mpr ⟨hq, hqap⟩
        exact hHmin q hqfil
      · intro q hq hqap hne
        rw [hdp]
        exact List.mem_map.mpr ⟨q, hq, hver_wait q hq hqap hne⟩
      · intro q hq hnap
        rw [hdp]
        exact List.mem_map.mpr ⟨q, hq, hver_go q hq hnap⟩

/-- Registered snapshots for the C1 witness: B and C approach (B closer),
A moves toward the center but is past the approach zone, D has no previous
position. -/
def c1States : List (String × IntersectionManager.VState) :=
  [("A", { lane_pos := 40, last_lane_pos := some 50 }),
   ("B", { lane_pos := 10, last_lane_pos := some 20 }),
   ("C", { lane_pos := 25, last_lane_pos := some 28 }),
   ("D", { lane_pos := 15, last_lane_pos := none })]

/-- Witness for C1 on four concrete registrations. -/
theorem decide_priorities_spec_witness :
    ((IntersectionManager.decide_priorities c1States).map Prod.fst
      = c1States.map Prod.fst)
    ∧ (∀ v : IntersectionManager.VState, v.last_lane_pos = none →
        IntersectionManager.approachingB v = false)
    ∧ ((∀ p ∈ c1States, IntersectionManager.approachingB p.2 = false) →
        ∀ r ∈ IntersectionManager.decide_priorities c1States, r.2 = "go")
    ∧ ((∃ p ∈ c1States, IntersectionManager.approachingB p.2 = true) →
        ∃ a ∈ c1States, IntersectionManager.approachingB a.2 = true
          ∧ (a.1, "go") ∈ IntersectionManager.decide_priorities c1States
          ∧ (∀ q ∈ c1States, IntersectionManager.approachingB q.2 = true →
              a.2.lane_pos ≤ q.2.lane_pos)
          ∧ (∀ q ∈ c1States, IntersectionManager.approachingB q.2 = true → q ≠ a →
              (q.1, "wait") ∈ IntersectionManager.decide_priorities c1States)
          ∧ (∀ q ∈ c1States, IntersectionManager.approachingB q.2 = false →
              (q.1, "go") ∈ IntersectionManager.decide_priorities c1States)) :=
  decide_priorities_spec c1States (by decide)

/-- Claim C9: `decide_priorities` is deterministic — it is a pure function
of the registered association list, so equal registrations (same ids in the
same insertion order with the same positions) give identical verdicts — and
on exact ties the grantee is the earliest-registered vehicle achieving the
minimal lane position, because the head of a stable sort of the
registration order is taken. -/
theorem decide_priorities_stable_tiebreak
    (states : List (String × IntersectionManager.VState))
    (hnd : (states.map Prod.fst).Nodup)
    (pre post : List (String × IntersectionManager.VState))
    (g : String × IntersectionManager.VState)
    (hsplit : states = pre ++ g :: post)
    (hg : IntersectionManager.approachingB g.2 = true)
    (hmin : ∀ q ∈ states, IntersectionManager.approachingB q.2 = true →
      g.2.lane_pos ≤ q.2.lane_pos)
    (hpre : ∀ q ∈ pre, IntersectionManager.approachingB q.2 = true →
      g.2.lane_pos < q.2.lane_pos) :
    (∀ t, t = states →
      IntersectionManager.decide_priorities t
        = IntersectionManager.decide_priorities states)
    ∧ (g.1, "go") ∈ IntersectionManager.decide_priorities states := by
  classical
  refine ⟨fun t ht => by rw [ht], ?_⟩
  have hgs : g ∈ states := by rw [hsplit]; simp
  have hgfil : g ∈ states.filter (fun p => IntersectionManager.approachingB p.2) :=
    List.mem_filter.mpr ⟨hgs, hg⟩
  cases hfil : states.filter (fun p => IntersectionManager.approachingB p.2) with
  | nil =>
    rw [hfil] at hgfil
    simp at hgfil
  | cons a rest =>
    obtain ⟨hHmem, hHmin⟩ := IntersectionManager.mergeSort_head_spec a rest
    set H := (((a :: rest).mergeSort IntersectionManager.posLE).headD a) with hHdef
    have hdp : IntersectionManager.decide_priorities states
        = states.map (IntersectionManager.verdictFor (a :: rest) H.1) := by
      unfold IntersectionManager.decide_priorities
      rw [hfil]
    have hHfil : H ∈ states.filter (fun p => IntersectionManager.approachingB p.2) := by
      rw [hfil]; exact hHmem
    have hHstates : H ∈ states := (List.mem_filter.mp hHfil).1
    have hHap := (List.mem_filter.mp hHfil).2
    have hgapp : g ∈ a :: rest := by rw [← hfil]; exact hgfil
    have hgH : g = H := by
      by_contra hne
      have h1 : g.2.lane_pos ≤ H.2.lane_pos := hmin H hHstates hHap
      have h2 : H.2.lane_pos ≤ g.2.lane_pos := hHmin g hgapp
      have hHsplit : H ∈ pre ∨ H ∈ post := by
        have hx := hHstates
        rw [hsplit] at hx
        rcases List.mem_append.mp hx with h | h
        · exact Or.inl h
        · rcases List.mem_cons.mp h with h' | h'
          · exact absurd h'.symm hne
          · exact Or.inr h'
      rcases hHsplit with hHpre | hHpost
      · exact absurd h2 (not_le.mpr (hpre H hHpre hHap))
      · have hsub : List.Sublist [g, H] states := by
          rw [hsplit]
          exact (List.Sublist.cons₂ g (List.singleton_sublist.mpr hHpost)).trans
            (List.sublist_append_right pre (g :: post))
        have hsubf : List.Sublist [g, H] (a :: rest) := by
          have hx := hsub.filter (fun p => IntersectionManager.approachingB p.2)
          rw [hfil] at hx
          simpa [List.filter_cons, hg, hHap] using hx
        have hgle : IntersectionManager.posLE g H = true := by
          simp [IntersectionManager.posLE, h1]
        have hpair := List.pair_sublist_mergeSort IntersectionManager.posLE_trans
          IntersectionManager.posLE_total hgle hsubf
        have hnodup : ((a :: rest).mergeSort IntersectionManager.posLE).Nodup := by
          have hsn : states.Nodup := List.Nodup.of_map _ hnd
          have happ : (a :: rest).Nodup := by
            rw [← hfil]
            exact (List.filter_sublist states).nodup hsn
          exact ((List.mergeSort_perm (a :: rest)
            IntersectionManager.posLE).nodup_iff).mpr happ
        cases hs : (a :: rest).mergeSort IntersectionManager.posLE with
        | nil =>
          have hlen : ((a :: rest).mergeSort IntersectionManager.posLE).length
              = (a :: rest).length := List.length_mergeSort _
          rw [hs] at hlen
          simp at hlen
        | cons h0 t =>
          have hH0 : H = h0 := by rw [hHdef, hs, List.headD_cons]
          rw [hs] at hnodup hpair
          have hh0t : h0 ∉ t := (List.nodup_cons.mp hnodup).1
          have hHt : H ∈ t := by
            cases hpair with
            | cons _ h' => exact h'.subset (by simp)
            | cons₂ _ h' => exact List.singleton_sublist.mp h'
          exact hh0t (hH0 ▸ hHt)
    have hallf : ¬ (((a :: rest).all fun q => q.1 != g.1) = true) := by
      intro hall
      have := List.all_eq_true.mp hall g hgapp
      simp at this
    have hver : IntersectionManager.verdictFor (a :: rest) H.1 g = (g.1, "go") := by
      rw [IntersectionManager.verdictFor, if_neg hallf, if_pos (by rw [hgH])]
    rw [hdp]
    exact List.mem_map.mpr ⟨g, hgs, hver⟩

/-- Registered snapshots for the C9 witness: two approaching vehicles tied
at lane position 5, A registered first. -/
def c9States : List (String × IntersectionManager.VState) :=
  [("A", { lane_pos := 5, last_lane_pos := some 10 }),
   ("B", { lane_pos := 5, last_lane_pos := some 10 })]

/-- Witness for C9: on an exact tie the earliest-registered vehicle A is
granted `go`. -/
theorem decide_priorities_stable_tiebreak_witness :
    (∀ t, t = c9States →
      IntersectionManager.decide_priorities t
        = IntersectionManager.decide_priorities c9States)
    ∧ (("A", "go") ∈ IntersectionManager.decide_priorities c9States) :=
  decide_priorities_stable_tiebreak c9States (by decide) []
    [("B", { lane_pos := 5, last_lane_pos := some 10 })]
    ("A", { lane_pos := 5, last_lane_pos := some 10 })
    rfl (by decide) (by decide) (by decide)
